import Mathlib

set_option maxHeartbeats 1000000

/-!
Verification development for the speedy.js type-directed code generation
engine.  The definitions below are a shallow embedding of the compiler
sources: static types are modelled by an inductive datatype mirroring the
TypeScript type-flag classification used by the generators, emitted LLVM
instructions by an inductive value type, and stateful generation by explicit
state passing over a code generation context record.  Components of the
repository whose implementation files are not part of the source snapshot
(only their callers are) are modelled from the specification; each such
definition carries a doc comment starting with the words "Modelled from the
spec".
-/

/-! ## Static types

Shallow embedding of the TypeScript static types as the generators observe
them through type flags (IntLike, NumberLike, BooleanLike, Object) and
through the maybe-object (nullable) test.  The objectType constructor
carries the printed name of a user-defined object type.
-/

inductive TsType where
  | int : TsType
  | number : TsType
  | boolean : TsType
  | array (elementType : TsType) : TsType
  | maybeObject (base : TsType) : TsType
  | objectType (name : String) : TsType
deriving DecidableEq, Repr

def isIntLike : TsType → Bool
  | .int => true
  | _ => false

def isNumberLike : TsType → Bool
  | .number => true
  | _ => false

def isBooleanLike : TsType → Bool
  | .boolean => true
  | _ => false

def isObjectFlag : TsType → Bool
  | .array _ => true
  | .objectType _ => true
  | _ => false

def isMaybeObjectType : TsType → Bool
  | .maybeObject _ => true
  | _ => false

def getNonNullableType : TsType → TsType
  | .maybeObject base => base
  | t => t

/-- Printed form of a static type as produced by typeChecker.typeToString
and embedded into diagnostics. -/
def typeToString : TsType → String
  | .int => "int"
  | .number => "number"
  | .boolean => "boolean"
  | .array e => typeToString e ++ "[]"
  | .maybeObject base => typeToString base ++ " | undefined"
  | .objectType name => name

/-! ## Low-level types and values -/

inductive LLVMType where
  | i1 : LLVMType
  | i8 : LLVMType
  | i32 : LLVMType
  | double : LLVMType
  | pointer (pointee : LLVMType) : LLVMType
  | struct (name : String) (body : List LLVMType) : LLVMType

inductive LLVMValue where
  | constInt (value : Int) : LLVMValue
  | constFP (value : Int) : LLVMValue
  | arg (index : Nat) : LLVMValue
  | neg (operand : LLVMValue) : LLVMValue
  | fneg (operand : LLVMValue) : LLVMValue
  | add (lhs rhs : LLVMValue) : LLVMValue
  | fadd (lhs rhs : LLVMValue) : LLVMValue
  | sub (lhs rhs : LLVMValue) : LLVMValue
  | fsub (lhs rhs : LLVMValue) : LLVMValue
  | notInst (operand : LLVMValue) : LLVMValue
  | icmpNe (lhs rhs : LLVMValue) : LLVMValue
  | fcmpOne (lhs rhs : LLVMValue) : LLVMValue
  | sitofp (operand : LLVMValue) : LLVMValue
  | fptosi (operand : LLVMValue) : LLVMValue
  | zext (operand : LLVMValue) : LLVMValue
  | call (callee : String) (args : List LLVMValue) : LLVMValue

/-- Attribution attached to emitted calls of runtime intrinsics. -/
structure CallAttributes where
  readnone : Bool
  noUnwind : Bool
deriving DecidableEq

/-- One call emitted into the instruction stream of the module under
construction. -/
structure EmittedCall where
  callee : String
  args : List LLVMValue
  attributes : CallAttributes

/-! ## Diagnostics

Structured diagnostics raised by the generators.  Every constructor carries
the source location of the offending node and the contextual detail named by
the specification (printed type names, member or operator names).
-/

inductive Diagnostic where
  | unsupportedBuiltIn (loc : Nat) (objectName memberName : String) : Diagnostic
  | unsupportedUnaryOperation (loc : Nat) (operator typeName : String) : Diagnostic
  | unsupportedLiteralType (loc : Nat) (typeName : String) : Diagnostic
deriving DecidableEq

/-! ## Code generation context -/

/-- Mutable per-compilation state threaded through the generators: the
monotonic GC-required flag, the emitted call stream, and the set of function
declarations of the module under construction. -/
structure CodeGenerationContext where
  requiresGc : Bool
  instructions : List EmittedCall
  moduleFunctions : List String

/-! ## Resolved functions (value/resolved-function.ts) -/

/-- Resolved function parameter, mirroring ResolvedFunctionParameter.  The
initializer expression node is abstracted to an opaque identifier. -/
structure ResolvedFunctionParameter where
  name : String
  type : TsType
  initializer : Option Nat
  optional : Bool
  variadic : Bool
deriving DecidableEq, Repr

/-- A resolved function: one concrete specialization of a possibly
generic or overloaded function, mirroring the ResolvedFunction interface.
The syntactic declaration, definition and symbol fields are abstracted
away; the source file is kept as its name. -/
structure ResolvedFunction where
  classType : Option TsType
  instanceMethod : Bool
  async : Bool
  functionName : Option String
  parameters : List ResolvedFunctionParameter
  typeParameters : List TsType
  returnType : TsType
  sourceFile : Option String
deriving DecidableEq, Repr

def createResolvedParameter (name : String) (type : TsType)
    (optional : Bool := false) (initializer : Option Nat := none)
    (variadic : Bool := false) : ResolvedFunctionParameter :=
  { name, type, optional, initializer, variadic }

def createResolvedFunction (name : String) (typeParameters : List TsType)
    (parameters : List ResolvedFunctionParameter) (returnType : TsType)
    (sourceFile : Option String := none) (classType : Option TsType := none)
    (instanceMethod : Bool := false) (async : Bool := false) : ResolvedFunction :=
  { async, functionName := some name, parameters, typeParameters,
    instanceMethod, returnType, sourceFile, classType }

/-! ## Name mangling

The base name mangler (DefaultNameMangler consumed through
FunctionFactory.mangleFunctionName) is not part of the source snapshot; it
is modelled from the spec as an unambiguous encoding of the triple
(enclosing type, function identity, ordered concrete parameter types) into a
string.  Each component is emitted as a length-prefixed chunk so that the
encoding is injective regardless of the characters appearing in names.
-/

/-- Length-prefixed chunk: the length of the payload in unary, a separator,
then the payload.  Concatenations of chunks can be decoded unambiguously. -/
def encodeChunk (payload : List Char) : List Char :=
  List.replicate payload.length 'L' ++ '$' :: payload

/-- Canonical code of a static type used inside mangled names. -/
def typeCode : TsType → List Char
  | .int => ['i']
  | .number => ['n']
  | .boolean => ['b']
  | .array e => 'A' :: typeCode e
  | .maybeObject base => 'M' :: typeCode base
  | .objectType name => 'C' :: encodeChunk name.data

def encodeTypeList : List TsType → List Char
  | [] => []
  | t :: rest => encodeChunk (typeCode t) ++ encodeTypeList rest

def encodeOptionalType : Option TsType → List Char
  | none => []
  | some t => typeCode t

/-- Modelled from the spec: DefaultNameMangler (the base implementation
behind FunctionFactory.mangleFunctionName, not in the source snapshot).
Per the spec it is a deterministic function of (enclosing type, function
identity, ordered concrete parameter types) where distinct concrete-type
combinations for the same declaration yield distinct names. -/
def baseMangleFunctionName (classType : Option TsType) (functionName : String)
    (parameterTypes : List TsType) : String :=
  String.mk (encodeChunk (encodeOptionalType classType)
    ++ encodeChunk functionName.data ++ encodeTypeList parameterTypes)

/-- SpeedyJSFunctionFactory.mangleFunctionName: async functions keep their
plain unmangled name, every other function is mangled by the base name
mangler over the ordered concrete types of the used parameters. -/
def SpeedyJSFunctionFactory.mangleFunctionName (resolvedFunction : ResolvedFunction)
    (typesOfUsedParameters : List TsType) : String :=
  if resolvedFunction.async then
    resolvedFunction.functionName.getD ""
  else
    baseMangleFunctionName resolvedFunction.classType
      (resolvedFunction.functionName.getD "") typesOfUsedParameters

/-! ### Injectivity of the mangling encoding -/

theorem replicate_sep_inj (k1 : Nat) :
    ∀ (k2 : Nat) (t1 t2 : List Char),
      List.replicate k1 'L' ++ '$' :: t1 = List.replicate k2 'L' ++ '$' :: t2 →
      k1 = k2 ∧ t1 = t2 := by
  induction k1 with
  | zero =>
    intro k2 t1 t2 h
    cases k2 with
    | zero => simpa using h
    | succ m => simp [List.replicate_succ] at h
  | succ n ih =>
    intro k2 t1 t2 h
    cases k2 with
    | zero => simp [List.replicate_succ] at h
    | succ m =>
      simp only [List.replicate_succ, List.cons_append, List.cons.injEq] at h
      obtain ⟨hk, ht⟩ := ih m t1 t2 h.2
      exact ⟨by omega, ht⟩

theorem encodeChunk_append_inj {c1 c2 r1 r2 : List Char}
    (h : encodeChunk c1 ++ r1 = encodeChunk c2 ++ r2) : c1 = c2 ∧ r1 = r2 := by
  unfold encodeChunk at h
  rw [List.append_assoc, List.append_assoc] at h
  simp only [List.cons_append] at h
  obtain ⟨hk, ht⟩ := replicate_sep_inj _ _ _ _ h
  exact List.append_inj ht hk

theorem encodeChunk_ne_nil (c : List Char) : encodeChunk c ≠ [] := by
  unfold encodeChunk
  cases c.length with
  | zero => simp
  | succ n => simp [List.replicate_succ]

theorem typeCode_inj : ∀ (t1 t2 : TsType), typeCode t1 = typeCode t2 → t1 = t2 := by
  intro t1
  induction t1 with
  | int => intro t2 h; cases t2 <;> first | rfl | simp [typeCode] at h
  | number => intro t2 h; cases t2 <;> first | rfl | simp [typeCode] at h
  | boolean => intro t2 h; cases t2 <;> first | rfl | simp [typeCode] at h
  | array e ih =>
    intro t2 h
    cases t2 <;> simp [typeCode] at h
    case array e2 => exact congrArg TsType.array (ih e2 h)
  | maybeObject base ih =>
    intro t2 h
    cases t2 <;> simp [typeCode] at h
    case maybeObject base2 => exact congrArg TsType.maybeObject (ih base2 h)
  | objectType name =>
    intro t2 h
    cases t2 <;> simp [typeCode] at h
    case objectType name2 =>
      have h2 : encodeChunk name.data ++ [] = encodeChunk name2.data ++ [] := by
        simpa using h
      have hd := (encodeChunk_append_inj h2).1
      cases name; cases name2; simp_all

theorem encodeTypeList_inj : ∀ {l1 l2 : List TsType},
    encodeTypeList l1 = encodeTypeList l2 → l1 = l2 := by
  intro l1
  induction l1 with
  | nil =>
    intro l2 h
    cases l2 with
    | nil => rfl
    | cons t rest =>
      exfalso
      have : encodeTypeList (t :: rest) ≠ [] := by
        simp only [encodeTypeList]
        intro hc
        exact encodeChunk_ne_nil (typeCode t) (List.append_eq_nil.mp hc).1
      exact this h.symm
  | cons t rest ih =>
    intro l2 h
    cases l2 with
    | nil =>
      exfalso
      have : encodeTypeList (t :: rest) ≠ [] := by
        simp only [encodeTypeList]
        intro hc
        exact encodeChunk_ne_nil (typeCode t) (List.append_eq_nil.mp hc).1
      exact this h
    | cons t2 rest2 =>
      simp only [encodeTypeList] at h
      obtain ⟨hc, hr⟩ := encodeChunk_append_inj h
      rw [typeCode_inj t t2 hc, ih hr]

/-! ## Primitive conversions

The Primitive value helpers (value/primitive.ts) are not part of the source
snapshot; they are modelled from the conversion rules of the spec: the three
primitive classifications convert among each other (integer-like widens
exactly to floating-point, narrowing and boolean conversions are explicit
constructs), and a value outside the classification has no conversion, which
surfaces as an absent result at the operator generators.
-/

/-- Modelled from the spec: Primitive.toNumber (value/primitive.ts, not in
the source snapshot).  Integer-like values widen exactly to floating-point;
floating-point values pass through unchanged. -/
def Primitive.toNumber (value : LLVMValue) (type numberType : TsType) : LLVMValue :=
  if isIntLike type then .sitofp value else value

/-- Modelled from the spec: Primitive.toBoolean (value/primitive.ts, not in
the source snapshot).  Boolean-like values pass through, integer-like and
floating-point-like values compare against zero; types outside the primitive
classification have no boolean conversion. -/
def Primitive.toBoolean (value : LLVMValue) (type : TsType) : Option LLVMValue :=
  if isBooleanLike type then some value
  else if isIntLike type then some (.icmpNe value (.constInt 0))
  else if isNumberLike type then some (.fcmpOne value (.constFP 0))
  else none

/-- Modelled from the spec: Primitive.toInt32 (value/primitive.ts, not in
the source snapshot).  The explicit narrowing construct: integer-like values
pass through, floating-point values truncate, boolean values zero-extend;
types outside the primitive classification have no integer conversion. -/
def Primitive.toInt32 (value : LLVMValue) (type resultType : TsType) : Option LLVMValue :=
  if isIntLike type then some value
  else if isNumberLike type then some (.fptosi value)
  else if isBooleanLike type then some (.zext value)
  else none

/-- Modelled from the spec: Value.castImplicit.  Identical static types
convert as a no-op, integer-like widens implicitly and exactly to
floating-point-like, every other conversion fails the implicit path. -/
def castImplicit (value : LLVMValue) (sourceType targetType : TsType) : Option LLVMValue :=
  if sourceType = targetType then some value
  else if isIntLike sourceType && isNumberLike targetType then some (.sitofp value)
  else none

/-! ## Built-in Math object (MathObjectReference) -/

/-- A runtime method reference of a built-in object together with the
attribution its emitted calls carry. -/
structure UnresolvedMethodReference where
  objectName : String
  methodName : String
  attributes : CallAttributes

/-- Modelled from the spec: UnresolvedMethodReference.createRuntimeMethod
(value/unresolved-method-reference.ts, not in the source snapshot).  Wraps a
pre-declared runtime method of a built-in object with the requested call
attribution. -/
def UnresolvedMethodReference.createRuntimeMethod (objectName methodName : String)
    (attributes : CallAttributes) : UnresolvedMethodReference :=
  { objectName, methodName, attributes }

/-- Modelled from the spec: invoking a runtime method emits one call that
carries the method's attribution and returns the call result value. -/
def UnresolvedMethodReference.invokeWith (method : UnresolvedMethodReference)
    (args : List LLVMValue) (context : CodeGenerationContext) :
    LLVMValue × CodeGenerationContext :=
  let callee := method.objectName ++ "." ++ method.methodName
  (.call callee args,
    { context with instructions := context.instructions ++ [⟨callee, args, method.attributes⟩] })

/-- A reference to a computed property of a built-in object. -/
structure ObjectPropertyReference where
  objectName : String
  propertyName : String
  readonly : Bool
  fromRuntime : Bool

/-- Modelled from the spec: BuiltInObjectReference.throwUnsupportedBuiltIn
(value/built-in-object-reference.ts, not in the source snapshot).  Raises the
UnsupportedBuiltIn diagnostic naming the built-in object and the accessed
member. -/
def BuiltInObjectReference.throwUnsupportedBuiltIn (typeName : String) (loc : Nat)
    (memberName : String) : Except Diagnostic ObjectPropertyReference :=
  .error (.unsupportedBuiltIn loc typeName memberName)

/-- The member names for which MathObjectReference.createFunctionFor returns
a runtime method (the switch cases of the source). -/
def supportedMathMethods : List String := ["pow", "sqrt", "log", "sin", "cos", "max"]

/-- MathObjectReference.createFunctionFor: a supported method lowers to the
llvm intrinsic runtime method carrying readnone and noUnwind attribution,
anything else raises the UnsupportedBuiltIn diagnostic naming Math and the
member. -/
def MathObjectReference.createFunctionFor (symbolName : String) (loc : Nat) :
    Except Diagnostic UnresolvedMethodReference :=
  if symbolName ∈ supportedMathMethods then
    .ok (UnresolvedMethodReference.createRuntimeMethod "Math" symbolName
      { readnone := true, noUnwind := true })
  else
    .error (.unsupportedBuiltIn loc "Math" symbolName)

/-- MathObjectReference.createPropertyReference: the PI property builds a
readonly runtime-computed property reference, anything else raises the
UnsupportedBuiltIn diagnostic. -/
def MathObjectReference.createPropertyReference (symbolName : String) (loc : Nat) :
    Except Diagnostic ObjectPropertyReference :=
  if symbolName = "PI" then
    .ok { objectName := "Math", propertyName := "PI", readonly := true, fromRuntime := true }
  else
    BuiltInObjectReference.throwUnsupportedBuiltIn "Math" loc symbolName

/-- A member access on the Math object routes to createFunctionFor when the
accessed member is used as a method and to createPropertyReference when it is
used as a property; the result is a reference of either kind or a
diagnostic. -/
def MathObjectReference.accessMember (isMethodAccess : Bool) (symbolName : String)
    (loc : Nat) : Except Diagnostic (UnresolvedMethodReference ⊕ ObjectPropertyReference) :=
  if isMethodAccess then
    (MathObjectReference.createFunctionFor symbolName loc).map Sum.inl
  else
    (MathObjectReference.createPropertyReference symbolName loc).map Sum.inr

/-- MathObjectReference.pow: converts both operands to floating-point via
Primitive.toNumber and invokes the runtime pow method with readnone and
noUnwind attribution. -/
def MathObjectReference.pow (lhs : LLVMValue) (lhsType : TsType) (rhs : LLVMValue)
    (rhsType : TsType) (numberType : TsType) (context : CodeGenerationContext) :
    LLVMValue × CodeGenerationContext :=
  let method := UnresolvedMethodReference.createRuntimeMethod "Math" "pow"
    { readnone := true, noUnwind := true }
  let args := [Primitive.toNumber lhs lhsType numberType,
               Primitive.toNumber rhs rhsType numberType]
  method.invokeWith args context

/-! ## Prefix unary expression generator
(code-generators/prefix-unary-expression-code-generator.ts) -/

inductive UnaryOperator where
  | exclamation : UnaryOperator
  | minus : UnaryOperator
  | minusMinus : UnaryOperator
  | plus : UnaryOperator
  | plusPlus : UnaryOperator
  | tilde : UnaryOperator
deriving DecidableEq, Repr

def operatorText : UnaryOperator → String
  | .exclamation => "!"
  | .minus => "-"
  | .minusMinus => "--"
  | .plus => "+"
  | .plusPlus => "++"
  | .tilde => "~"

/-- Result of generating a prefix unary expression: the produced value with
its static type, and the value assigned back to the operand lvalue when the
operator mutates it. -/
structure GenResult where
  value : LLVMValue
  resultType : TsType
  assignedBack : Option LLVMValue

/-- The switch over the operator in PrefixUnaryExpressionCodeGenerator:
computes the optional result operand; an absent result means the
operator/operand-type combination is not lowerable. -/
def unaryResult (operator : UnaryOperator) (operandType resultType : TsType)
    (left : LLVMValue) : Option LLVMValue :=
  match operator with
  | .exclamation => (Primitive.toBoolean left operandType).map .notInst
  | .minus =>
      if isIntLike operandType then some (.neg left)
      else if isNumberLike operandType then some (.fneg left)
      else none
  | .minusMinus =>
      if isIntLike operandType then some (.sub left (.constInt 1))
      else if isNumberLike operandType then some (.fsub left (.constFP 1))
      else none
  | .plus =>
      if isIntLike operandType || isNumberLike operandType || isBooleanLike operandType then
        castImplicit left operandType resultType
      else none
  | .plusPlus =>
      if isIntLike operandType then some (.add left (.constInt 1))
      else if isNumberLike operandType then some (.fadd left (.constFP 1))
      else none
  | .tilde => (Primitive.toInt32 left operandType resultType).map .notInst

/-- PrefixUnaryExpressionCodeGenerator.generate: computes the result operand
for the operator, raises UnsupportedOperation naming the operator and the
printed operand type when no instruction family applies, and assigns the
result back to the operand for the mutating operators. -/
def PrefixUnaryExpressionCodeGenerator.generate (operator : UnaryOperator)
    (operandType resultType : TsType) (left : LLVMValue) (loc : Nat) :
    Except Diagnostic GenResult :=
  match unaryResult operator operandType resultType left with
  | none =>
      .error (.unsupportedUnaryOperation loc (operatorText operator) (typeToString operandType))
  | some result =>
      .ok { value := result, resultType,
            assignedBack :=
              if operator = .plusPlus ∨ operator = .minusMinus then some result else none }

/-- Static characterization of the operator/operand-type combinations for
which an instruction family applies, read off the branches of the
generator. -/
def unaryLowerable (operator : UnaryOperator) (operandType resultType : TsType) : Bool :=
  match operator with
  | .exclamation =>
      isBooleanLike operandType || isIntLike operandType || isNumberLike operandType
  | .minus | .minusMinus | .plusPlus =>
      isIntLike operandType || isNumberLike operandType
  | .plus =>
      (isIntLike operandType || isNumberLike operandType || isBooleanLike operandType)
        && (decide (operandType = resultType)
            || (isIntLike operandType && isNumberLike resultType))
  | .tilde =>
      isIntLike operandType || isNumberLike operandType || isBooleanLike operandType

/-! ## Numeric literal generator
(code-generators/first-literal-token-code-generator.ts) -/

/-- A numeric literal token: its source location and the numeric value of
its text. -/
structure LiteralNode where
  loc : Nat
  text : Int

/-- FirstLiteralTokenCodeGenerator.generate: an integer-like resolved type
yields an integer constant, a floating-point-like resolved type yields a
floating-point constant, anything else raises InvalidLiteral with the
printed type name. -/
def FirstLiteralTokenCodeGenerator.generate (node : LiteralNode) (type : TsType) :
    Except Diagnostic (LLVMValue × TsType) :=
  if isIntLike type then .ok (.constInt node.text, type)
  else if isNumberLike type then .ok (.constFP node.text, type)
  else .error (.unsupportedLiteralType node.loc (typeToString type))

/-! ## Array class reference (value/array-class-reference.ts) -/

/-- Modelled from the spec: getArrayElementType (util/types.ts, not in the
source snapshot).  Returns the element type of an array type. -/
def getArrayElementType : TsType → TsType
  | .array elementType => elementType
  | t => t

/-- Modelled from the spec: toLLVMType (util/types.ts, not in the source
snapshot).  Lowers a primitive static type to its low-level register type
(int to i32, number to double, boolean to the one-bit flag type i1) and a
reference type to a pointer. -/
def toLLVMType : TsType → LLVMType
  | .int => .i32
  | .number => .double
  | .boolean => .i1
  | .array _ => .pointer .i8
  | .maybeObject _ => .pointer .i8
  | .objectType _ => .pointer .i8

/-- getLLVMArrayElementType: nullable element types are stripped to their
non-nullable part, object elements are stored as i8 pointers, boolean
elements as i8, every other element as its register type. -/
def getLLVMArrayElementType (tsElementType : TsType) : LLVMType :=
  let stripped :=
    if isMaybeObjectType tsElementType then getNonNullableType tsElementType
    else tsElementType
  if isObjectFlag stripped then .pointer .i8
  else if isBooleanLike stripped then .i8
  else toLLVMType stripped

/-- The struct layout ArrayClassReference.getLLVMType creates for an array
whose stripped element type is the given type: two element pointers and an
i32 length. -/
def arrayStructFor (strippedElementType : TsType) : LLVMType :=
  .struct "class.Array"
    [.pointer (getLLVMArrayElementType strippedElementType),
     .pointer (getLLVMArrayElementType strippedElementType),
     .i32]

/-- Lookup in the per-class llvmTypes map, keyed by the stripped element
type. -/
def lookupCached : List (TsType × LLVMType) → TsType → Option LLVMType
  | [], _ => none
  | (key, value) :: rest, elementType =>
      if key = elementType then some value else lookupCached rest elementType

/-- ArrayClassReference.getLLVMType: strips the nullable part of the element
type, reuses a cached struct for that element type when one exists, and
otherwise creates and caches a struct of two element pointers plus an i32
length. -/
def ArrayClassReference.getLLVMType (llvmTypes : List (TsType × LLVMType))
    (type : TsType) : LLVMType × List (TsType × LLVMType) :=
  let elementType0 := getArrayElementType type
  let elementType :=
    if isMaybeObjectType elementType0 then getNonNullableType elementType0
    else elementType0
  match lookupCached llvmTypes elementType with
  | some existing => (existing, llvmTypes)
  | none => (arrayStructFor elementType, (elementType, arrayStructFor elementType) :: llvmTypes)

/-- Invariant of the per-class llvmTypes cache: every cached struct is the
canonical array struct of its element type. -/
def llvmTypesCacheWF (llvmTypes : List (TsType × LLVMType)) : Prop :=
  ∀ entry ∈ llvmTypes, entry.2 = arrayStructFor entry.1

/-- Modelled from the spec: RuntimeSystemNameMangler.mangleMethodName (not in
the source snapshot).  Produces the runtime symbol name of a method of a
runtime-provided type. -/
def RuntimeSystemNameMangler.mangleMethodName (classType : TsType) (methodName : String)
    (parameterTypes : List TsType) : String :=
  String.mk ('r' :: 't' :: encodeChunk (typeCode classType)
    ++ encodeChunk methodName.data ++ encodeTypeList parameterTypes)

/-- A reference to one concrete runtime function. -/
structure ResolvedFunctionReference where
  name : String
  resolvedFunction : ResolvedFunction

/-- Modelled from the spec: ResolvedFunctionReference.createRuntimeFunction
(value/resolved-function-reference.ts, not in the source snapshot).  Binds a
resolved function to its pre-declared runtime symbol. -/
def ResolvedFunctionReference.createRuntimeFunction (resolvedFunction : ResolvedFunction)
    (context : CodeGenerationContext) : ResolvedFunctionReference :=
  { name := RuntimeSystemNameMangler.mangleMethodName
      (resolvedFunction.classType.getD resolvedFunction.returnType)
      (resolvedFunction.functionName.getD "")
      (resolvedFunction.parameters.map (fun p => p.type)),
    resolvedFunction }

/-- Modelled from the spec: invoking a runtime function whose trailing
parameter is variadic passes the element operands followed by one implicit
length argument and emits exactly one constructor call. -/
def ResolvedFunctionReference.invokeWith (fn : ResolvedFunctionReference)
    (args : List LLVMValue) (context : CodeGenerationContext) :
    LLVMValue × CodeGenerationContext :=
  let callArgs := args ++ [.constInt (Int.ofNat args.length)]
  (.call fn.name callArgs,
    { context with instructions :=
        context.instructions ++ [⟨fn.name, callArgs, ⟨false, false⟩⟩] })

/-- ArrayClassReference.fromLiteral: builds the resolved runtime constructor
taking the variadic items parameter, raises the GC-required flag, and
invokes the constructor with the element values. -/
def ArrayClassReference.fromLiteral (type : TsType) (elements : List LLVMValue)
    (context : CodeGenerationContext) : LLVMValue × CodeGenerationContext :=
  let parameters := [createResolvedParameter "items" type false none true]
  let resolvedConstructor :=
    createResolvedFunction "constructor" [] parameters type none (some type)
  let constructorFunction :=
    ResolvedFunctionReference.createRuntimeFunction resolvedConstructor context
  let context := { context with requiresGc := true }
  constructorFunction.invokeWith elements context

/-- ArrayClassReference.fromCArray: declares the runtime constructor taking
an element pointer and an i32 length when the module does not hold it yet,
emits the constructor call, and raises the GC-required flag. -/
def ArrayClassReference.fromCArray (type : TsType) (elementsPtr length : LLVMValue)
    (context : CodeGenerationContext) : LLVMValue × CodeGenerationContext :=
  let constructorName := RuntimeSystemNameMangler.mangleMethodName type "constructor" [type]
  let context :=
    if context.moduleFunctions.contains constructorName then context
    else { context with moduleFunctions := constructorName :: context.moduleFunctions }
  let arrayPtr := LLVMValue.call constructorName [elementsPtr, length]
  let context :=
    { context with
        instructions :=
          context.instructions ++ [⟨constructorName, [elementsPtr, length], ⟨false, false⟩⟩],
        requiresGc := true }
  (arrayPtr, context)

/-- A new expression, abstracted to the identity of its resolved constructor
signature. -/
structure NewExpression where
  resolvedSignature : Nat

/-- A function reference not yet resolved to one concrete specialization. -/
structure UnresolvedFunctionReference where
  signatures : List Nat

/-- ArrayClassReference.getConstructor: reads the resolved signature of the
new expression, raises the GC-required flag, and returns the runtime
constructor reference. -/
def ArrayClassReference.getConstructor (newExpression : NewExpression)
    (context : CodeGenerationContext) :
    UnresolvedFunctionReference × CodeGenerationContext :=
  ({ signatures := [newExpression.resolvedSignature] },
   { context with requiresGc := true })

/-! ## Generation steps and the GC flag -/

/-- One generation step of the modelled fragment of the engine, used to
state context-threading properties across a whole compilation. -/
inductive GenStep where
  | arrayFromLiteral (type : TsType) (elements : List LLVMValue) : GenStep
  | arrayFromCArray (type : TsType) (elementsPtr length : LLVMValue) : GenStep
  | arrayGetConstructor (newExpression : NewExpression) : GenStep
  | mathPow (lhs : LLVMValue) (lhsType : TsType) (rhs : LLVMValue)
      (rhsType : TsType) (numberType : TsType) : GenStep
  | mathMemberAccess (isMethodAccess : Bool) (symbolName : String) (loc : Nat) : GenStep
  | prefixUnary (operator : UnaryOperator) (operandType resultType : TsType)
      (left : LLVMValue) (loc : Nat) : GenStep
  | literal (node : LiteralNode) (type : TsType) : GenStep

/-- Applies one generation step to the context, discarding the produced
value: this is the context-effect footprint of the modelled generators. -/
def applyStep (step : GenStep) (context : CodeGenerationContext) : CodeGenerationContext :=
  match step with
  | .arrayFromLiteral type elements => (ArrayClassReference.fromLiteral type elements context).2
  | .arrayFromCArray type elementsPtr length =>
      (ArrayClassReference.fromCArray type elementsPtr length context).2
  | .arrayGetConstructor newExpression =>
      (ArrayClassReference.getConstructor newExpression context).2
  | .mathPow lhs lhsType rhs rhsType numberType =>
      (MathObjectReference.pow lhs lhsType rhs rhsType numberType context).2
  | .mathMemberAccess _ _ _ => context
  | .prefixUnary _ _ _ _ _ => context
  | .literal _ _ => context

/-- Runs a sequence of generation steps over the context. -/
def runSteps (steps : List GenStep) (context : CodeGenerationContext) :
    CodeGenerationContext :=
  match steps with
  | [] => context
  | step :: rest => runSteps rest (applyStep step context)

/-! ## Claim theorems -/

/-- C1 (amended): for every non-async specialization, the mangled name is a
deterministic function of the ordered concrete parameter types of a fixed
declaration, and distinct concrete parameter-type tuples yield distinct
mangled names (the name equals iff the tuples are equal). -/
theorem C1_mangling_deterministic_and_injective (resolvedFunction : ResolvedFunction)
    (types1 types2 : List TsType) (h : resolvedFunction.async = false) :
    SpeedyJSFunctionFactory.mangleFunctionName resolvedFunction types1
      = SpeedyJSFunctionFactory.mangleFunctionName resolvedFunction types2
      ↔ types1 = types2 := by
  constructor
  · intro he
    unfold SpeedyJSFunctionFactory.mangleFunctionName at he
    rw [h] at he
    simp only [Bool.false_eq_true, if_false] at he
    unfold baseMangleFunctionName at he
    have hd := congrArg String.data he
    exact encodeTypeList_inj (List.append_cancel_left hd)
  · intro he
    rw [he]

/-- Async specialization used to exhibit the failure of mangled-name
injectivity for async functions. -/
def asyncFibSpecialization : ResolvedFunction :=
  { classType := none, instanceMethod := false, async := true,
    functionName := some "fib", parameters := [], typeParameters := [],
    returnType := TsType.int, sourceFile := none }

/-- C1 counterexample: an async specialization keeps its plain unmangled
function name, so two distinct concrete parameter-type tuples for the same
declaration receive the identical mangled name, refuting the injectivity
part of the claim as stated. -/
theorem C1_counterexample :
    SpeedyJSFunctionFactory.mangleFunctionName asyncFibSpecialization [TsType.int]
      = SpeedyJSFunctionFactory.mangleFunctionName asyncFibSpecialization [TsType.number]
    ∧ ([TsType.int] : List TsType) ≠ [TsType.number] :=
  ⟨rfl, by decide⟩

/-- Non-async specialization used as the concrete input of the C1 witness. -/
def nonAsyncMax3Specialization : ResolvedFunction :=
  { classType := none, instanceMethod := false, async := false,
    functionName := some "max3", parameters := [], typeParameters := [],
    returnType := TsType.int, sourceFile := none }

/-- C1 witness: the amended theorem applied at a concrete non-async
specialization with the two distinct tuples (int) and (number). -/
theorem C1_witness :
    SpeedyJSFunctionFactory.mangleFunctionName nonAsyncMax3Specialization [TsType.int]
      ≠ SpeedyJSFunctionFactory.mangleFunctionName nonAsyncMax3Specialization [TsType.number] :=
  fun h =>
    absurd ((C1_mangling_deterministic_and_injective nonAsyncMax3Specialization
      [TsType.int] [TsType.number] rfl).mp h) (by decide)

/-- C2: calling the Math.pow intrinsic with two integer-like typed arguments
widens both operands to floating-point before the intrinsic call is emitted,
and the emitted call carries the readnone and noUnwind attribution. -/
theorem C2_pow_promotes_and_attributes (lhs rhs : LLVMValue)
    (lhsType rhsType numberType : TsType) (context : CodeGenerationContext)
    (h1 : isIntLike lhsType = true) (h2 : isIntLike rhsType = true) :
    (MathObjectReference.pow lhs lhsType rhs rhsType numberType context).2.instructions
      = context.instructions
        ++ [⟨"Math.pow", [.sitofp lhs, .sitofp rhs], ⟨true, true⟩⟩] := by
  simp [MathObjectReference.pow, UnresolvedMethodReference.invokeWith,
    UnresolvedMethodReference.createRuntimeMethod, Primitive.toNumber, h1, h2]

/-- C2 witness: the theorem applied to concrete int-typed operands in the
fresh context. -/
theorem C2_witness :
    (MathObjectReference.pow (.arg 0) TsType.int (.arg 1) TsType.int TsType.number
      ⟨false, [], []⟩).2.instructions
      = [⟨"Math.pow", [.sitofp (.arg 0), .sitofp (.arg 1)], ⟨true, true⟩⟩] := by
  have h := C2_pow_promotes_and_attributes (.arg 0) (.arg 1) TsType.int TsType.int
    TsType.number ⟨false, [], []⟩ rfl rfl
  simpa using h

/-- C3: accessing a member of the built-in Math object whose name is outside
the supported set (methods pow, sqrt, log, sin, cos, max; property PI) fails
with the UnsupportedBuiltIn diagnostic naming Math and the member, through
both the method path and the property path; no reference is returned. -/
theorem C3_unsupported_math_member (symbolName : String) (loc : Nat)
    (isMethodAccess : Bool)
    (h : symbolName ∉ ["pow", "sqrt", "log", "sin", "cos", "max", "PI"]) :
    MathObjectReference.accessMember isMethodAccess symbolName loc
      = .error (.unsupportedBuiltIn loc "Math" symbolName) := by
  have hm : symbolName ∉ supportedMathMethods := by
    intro hmem
    apply h
    simp only [supportedMathMethods, List.mem_cons, List.not_mem_nil, or_false] at hmem
    simp only [List.mem_cons, List.not_mem_nil, or_false]
    tauto
  have hpi : symbolName ≠ "PI" := by
    intro hpi
    apply h
    simp [hpi]
  cases isMethodAccess <;>
    simp [MathObjectReference.accessMember, MathObjectReference.createFunctionFor,
      MathObjectReference.createPropertyReference,
      BuiltInObjectReference.throwUnsupportedBuiltIn, hm, hpi, Except.map]

/-- C3 witness: accessing Math.frobnicate fails with UnsupportedBuiltIn
naming Math and frobnicate on both access paths. -/
theorem C3_witness :
    MathObjectReference.accessMember true "frobnicate" 5
        = .error (.unsupportedBuiltIn 5 "Math" "frobnicate")
      ∧ MathObjectReference.accessMember false "frobnicate" 5
        = .error (.unsupportedBuiltIn 5 "Math" "frobnicate") :=
  ⟨C3_unsupported_math_member "frobnicate" 5 true (by decide),
   C3_unsupported_math_member "frobnicate" 5 false (by decide)⟩

/-- C4: every array-construction entry point (literal construction, raw C
buffer construction, and constructor resolution for a new expression) sets
the GC-required flag of the context to true before returning. -/
theorem C4_array_construction_sets_gc (type : TsType) (elements : List LLVMValue)
    (elementsPtr len : LLVMValue) (newExpression : NewExpression)
    (context : CodeGenerationContext) :
    (ArrayClassReference.fromLiteral type elements context).2.requiresGc = true
      ∧ (ArrayClassReference.fromCArray type elementsPtr len context).2.requiresGc = true
      ∧ (ArrayClassReference.getConstructor newExpression context).2.requiresGc = true := by
  refine ⟨?_, ?_, rfl⟩
  · simp [ArrayClassReference.fromLiteral, ResolvedFunctionReference.invokeWith]
  · simp [ArrayClassReference.fromCArray]

/-- C5: the GC-required flag is monotonic: no modelled generation step
assigns it false, so once it reads true it reads true after every further
sequence of generation steps of the compilation. -/
theorem C5_gc_flag_monotonic (steps : List GenStep) (context : CodeGenerationContext)
    (h : context.requiresGc = true) :
    (runSteps steps context).requiresGc = true := by
  induction steps generalizing context with
  | nil => exact h
  | cons step rest ih =>
    rw [runSteps]
    apply ih
    cases step <;>
      simp [applyStep, ArrayClassReference.fromLiteral, ArrayClassReference.fromCArray,
        ArrayClassReference.getConstructor, MathObjectReference.pow,
        UnresolvedMethodReference.invokeWith, ResolvedFunctionReference.invokeWith, h]

/-- C5 witness: the theorem applied to a concrete step sequence starting
from a context whose flag already reads true. -/
theorem C5_witness :
    (runSteps [GenStep.literal ⟨0, 3⟩ TsType.int,
               GenStep.prefixUnary .minus TsType.int TsType.int (.arg 0) 1]
      ⟨true, [], []⟩).requiresGc = true :=
  C5_gc_flag_monotonic _ _ rfl

/-- C6: a prefix unary expression whose operator/operand-type combination is
not lowerable fails with the UnsupportedOperation diagnostic naming the
operator and the printed static type of the operand; the node is never
silently skipped or emitted as a no-op. -/
theorem C6_unsupported_unary_raises (operator : UnaryOperator)
    (operandType resultType : TsType) (left : LLVMValue) (loc : Nat)
    (h : unaryLowerable operator operandType resultType = false) :
    PrefixUnaryExpressionCodeGenerator.generate operator operandType resultType left loc
      = .error (.unsupportedUnaryOperation loc (operatorText operator)
          (typeToString operandType)) := by
  have hres : unaryResult operator operandType resultType left = none := by
    cases operator <;> cases operandType <;>
      simp_all [unaryLowerable, unaryResult, Primitive.toBoolean, Primitive.toInt32,
        castImplicit, isIntLike, isNumberLike, isBooleanLike]
  unfold PrefixUnaryExpressionCodeGenerator.generate
  rw [hres]

/-- C6 witness: pre-decrement applied to a boolean operand fails with
UnsupportedOperation naming the operator and the printed type. -/
theorem C6_witness :
    PrefixUnaryExpressionCodeGenerator.generate .minusMinus TsType.boolean TsType.boolean
        (.arg 0) 7
      = .error (.unsupportedUnaryOperation 7 "--" "boolean") :=
  C6_unsupported_unary_raises .minusMinus TsType.boolean TsType.boolean (.arg 0) 7 rfl

/-- C7: for the prefix arithmetic operators the instruction family follows
the static classification alone: an integer-like operand lowers to the
integer instructions neg, add and sub, a floating-point-like operand lowers
to the floating-point instructions fneg, fadd and fsub, and the emitted
operand is exactly that instruction applied to the statically generated
operand, with no runtime type check inserted. -/
theorem C7_instruction_family_from_classification (operandType resultType : TsType)
    (left : LLVMValue) (loc : Nat) :
    (isIntLike operandType = true →
        PrefixUnaryExpressionCodeGenerator.generate .minus operandType resultType left loc
            = .ok ⟨.neg left, resultType, none⟩
          ∧ PrefixUnaryExpressionCodeGenerator.generate .plusPlus operandType resultType left loc
            = .ok ⟨.add left (.constInt 1), resultType, some (.add left (.constInt 1))⟩
          ∧ PrefixUnaryExpressionCodeGenerator.generate .minusMinus operandType resultType left loc
            = .ok ⟨.sub left (.constInt 1), resultType, some (.sub left (.constInt 1))⟩)
      ∧ (isNumberLike operandType = true →
        PrefixUnaryExpressionCodeGenerator.generate .minus operandType resultType left loc
            = .ok ⟨.fneg left, resultType, none⟩
          ∧ PrefixUnaryExpressionCodeGenerator.generate .plusPlus operandType resultType left loc
            = .ok ⟨.fadd left (.constFP 1), resultType, some (.fadd left (.constFP 1))⟩
          ∧ PrefixUnaryExpressionCodeGenerator.generate .minusMinus operandType resultType left loc
            = .ok ⟨.fsub left (.constFP 1), resultType, some (.fsub left (.constFP 1))⟩) := by
  constructor
  · intro h
    cases operandType <;> simp_all [isIntLike] <;>
      exact ⟨rfl, rfl, rfl⟩
  · intro h
    cases operandType <;> simp_all [isNumberLike] <;>
      exact ⟨rfl, rfl, rfl⟩

/-- C7 witness: the theorem applied at the concrete int and number operand
types. -/
theorem C7_witness :
    PrefixUnaryExpressionCodeGenerator.generate .minus TsType.int TsType.int (.arg 0) 0
        = .ok ⟨.neg (.arg 0), TsType.int, none⟩
      ∧ PrefixUnaryExpressionCodeGenerator.generate .minus TsType.number TsType.number
          (.arg 0) 0
        = .ok ⟨.fneg (.arg 0), TsType.number, none⟩ :=
  ⟨((C7_instruction_family_from_classification TsType.int TsType.int (.arg 0) 0).1 rfl).1,
   ((C7_instruction_family_from_classification TsType.number TsType.number (.arg 0) 0).2 rfl).1⟩

/-! ### Cache lemmas for the array struct layout -/

theorem lookupCached_wf {llvmTypes : List (TsType × LLVMType)} {elementType : TsType}
    {found : LLVMType} (hwf : llvmTypesCacheWF llvmTypes)
    (hl : lookupCached llvmTypes elementType = some found) :
    found = arrayStructFor elementType := by
  induction llvmTypes with
  | nil => simp [lookupCached] at hl
  | cons entry rest ih =>
    obtain ⟨key, value⟩ := entry
    by_cases hk : key = elementType
    · rw [lookupCached, if_pos hk] at hl
      cases hl
      have := hwf (key, found) (List.mem_cons_self _ _)
      simpa [hk] using this
    · rw [lookupCached, if_neg hk] at hl
      exact ih (fun e he => hwf e (List.mem_cons_of_mem _ he)) hl

/-- C8 (amended): the element layout is determined by the element's static
type: int and number elements are stored inline as their own register type,
boolean elements are stored inline but widened to i8, and reference as well
as nullable element types are stored as i8 pointers; and every array type
receives the struct layout of two element pointers plus an i32 length, so
two array types with layout-equivalent element types receive the same
struct layout. -/
theorem C8_array_layout (llvmTypes : List (TsType × LLVMType)) (type : TsType)
    (hwf : llvmTypesCacheWF llvmTypes) :
    getLLVMArrayElementType TsType.int = toLLVMType TsType.int
      ∧ getLLVMArrayElementType TsType.number = toLLVMType TsType.number
      ∧ getLLVMArrayElementType TsType.boolean = LLVMType.i8
      ∧ (∀ elementType, isObjectFlag elementType = true →
          getLLVMArrayElementType elementType = .pointer .i8)
      ∧ (∀ base, isObjectFlag base = true →
          getLLVMArrayElementType (TsType.maybeObject base) = .pointer .i8)
      ∧ (ArrayClassReference.getLLVMType llvmTypes type).1
          = arrayStructFor
              (if isMaybeObjectType (getArrayElementType type) then
                getNonNullableType (getArrayElementType type)
              else getArrayElementType type)
      ∧ llvmTypesCacheWF (ArrayClassReference.getLLVMType llvmTypes type).2 := by
  refine ⟨rfl, rfl, rfl, ?_, ?_, ?_, ?_⟩
  · intro elementType he
    cases elementType <;> simp_all [isObjectFlag, getLLVMArrayElementType,
      isMaybeObjectType, getNonNullableType, isBooleanLike]
  · intro base hb
    cases base <;> simp_all [isObjectFlag, getLLVMArrayElementType,
      isMaybeObjectType, getNonNullableType, isBooleanLike]
  · unfold ArrayClassReference.getLLVMType
    cases hl : lookupCached llvmTypes
        (if isMaybeObjectType (getArrayElementType type) then
          getNonNullableType (getArrayElementType type)
        else getArrayElementType type) with
    | none => simp [hl]
    | some found => simp [hl, lookupCached_wf hwf hl]
  · unfold ArrayClassReference.getLLVMType
    cases hl : lookupCached llvmTypes
        (if isMaybeObjectType (getArrayElementType type) then
          getNonNullableType (getArrayElementType type)
        else getArrayElementType type) with
    | none =>
      simp only [hl]
      intro entry he
      rcases List.mem_cons.mp he with h1 | h2
      · rw [h1]
      · exact hwf entry h2
    | some found => simpa [hl] using hwf

/-- C8 counterexample: a boolean element type is primitive (neither a
reference nor nullable) yet its array storage is the widened i8, not the
boolean register type i1 the element type itself lowers to. -/
theorem C8_counterexample :
    getLLVMArrayElementType TsType.boolean = LLVMType.i8
      ∧ getLLVMArrayElementType TsType.boolean ≠ toLLVMType TsType.boolean :=
  ⟨rfl, fun h => LLVMType.noConfusion h⟩

/-- C8 witness: the amended theorem applied to the empty cache and the int
array type yields the canonical two-pointers-plus-length struct. -/
theorem C8_witness :
    (ArrayClassReference.getLLVMType [] (TsType.array TsType.int)).1
      = LLVMType.struct "class.Array" [.pointer .i32, .pointer .i32, .i32] := by
  have h := (C8_array_layout [] (TsType.array TsType.int)
    (fun entry he => absurd he (List.not_mem_nil entry))).2.2.2.2.2.1
  simpa [arrayStructFor, getArrayElementType, isMaybeObjectType,
    getLLVMArrayElementType, toLLVMType, isObjectFlag, isBooleanLike,
    getNonNullableType] using h

/-- C9: generating a numeric literal whose resolved type is neither
integer-like nor floating-point-like fails with the InvalidLiteral
diagnostic carrying the source location and the printed type name; an
integer-like literal yields an integer constant and a floating-point-like
literal yields a floating-point constant. -/
theorem C9_literal_generation (node : LiteralNode) (type : TsType) :
    (isIntLike type = false → isNumberLike type = false →
        FirstLiteralTokenCodeGenerator.generate node type
          = .error (.unsupportedLiteralType node.loc (typeToString type)))
      ∧ (isIntLike type = true →
          FirstLiteralTokenCodeGenerator.generate node type
            = .ok (.constInt node.text, type))
      ∧ (isIntLike type = false → isNumberLike type = true →
          FirstLiteralTokenCodeGenerator.generate node type
            = .ok (.constFP node.text, type)) := by
  refine ⟨?_, ?_, ?_⟩
  · intro hi hn
    simp [FirstLiteralTokenCodeGenerator.generate, hi, hn]
  · intro hi
    simp [FirstLiteralTokenCodeGenerator.generate, hi]
  · intro hi hn
    simp [FirstLiteralTokenCodeGenerator.generate, hi, hn]

/-- C9 witness: the theorem applied at a boolean-typed, an int-typed and a
number-typed literal token. -/
theorem C9_witness :
    FirstLiteralTokenCodeGenerator.generate ⟨3, 7⟩ TsType.boolean
        = .error (.unsupportedLiteralType 3 "boolean")
      ∧ FirstLiteralTokenCodeGenerator.generate ⟨3, 7⟩ TsType.int
        = .ok (.constInt 7, TsType.int)
      ∧ FirstLiteralTokenCodeGenerator.generate ⟨3, 7⟩ TsType.number
        = .ok (.constFP 7, TsType.number) :=
  ⟨(C9_literal_generation ⟨3, 7⟩ TsType.boolean).1 rfl rfl,
   (C9_literal_generation ⟨3, 7⟩ TsType.int).2.1 rfl,
   (C9_literal_generation ⟨3, 7⟩ TsType.number).2.2 rfl rfl⟩

/-- C10: in every successful generation of a prefix unary expression the
operand lvalue is re-assigned exactly when the operator is the pre-increment
or pre-decrement, and the value assigned back equals the returned result;
for every other operator the operand's stored value is left unchanged. -/
theorem C10_assignment_iff_mutating (operator : UnaryOperator)
    (operandType resultType : TsType) (left : LLVMValue) (loc : Nat)
    (result : GenResult)
    (h : PrefixUnaryExpressionCodeGenerator.generate operator operandType resultType left loc
          = .ok result) :
    (result.assignedBack.isSome = true
        ↔ (operator = .plusPlus ∨ operator = .minusMinus))
      ∧ (∀ assigned, result.assignedBack = some assigned → assigned = result.value) := by
  unfold PrefixUnaryExpressionCodeGenerator.generate at h
  cases hr : unaryResult operator operandType resultType left with
  | none =>
    rw [hr] at h
    exact absurd h (by simp)
  | some v =>
    rw [hr] at h
    cases h
    by_cases hc : operator = .plusPlus ∨ operator = .minusMinus
    · constructor
      · simp [hc]
      · intro assigned ha
        simp only [if_pos hc] at ha
        cases ha
        rfl
    · constructor
      · simp [hc]
      · intro assigned ha
        simp [if_neg hc] at ha

/-- C10 witness: the theorem applied to the successful generation of a
pre-increment of an int operand; the operand is re-assigned with the
returned value. -/
theorem C10_witness :
    ({ value := .add (.arg 0) (.constInt 1), resultType := TsType.int,
       assignedBack := some (.add (.arg 0) (.constInt 1)) } : GenResult).assignedBack.isSome
      = true :=
  ((C10_assignment_iff_mutating .plusPlus TsType.int TsType.int (.arg 0) 0 _ rfl).1).mpr
    (Or.inl rfl)
